import Mathlib

/-!
Verification of `src/app/static/js/map.js` (ZabUX map widget initializer).

The script is:

  document.addEventListener(-DOMContentLoaded-, function () \x7b
    const map = L.map(-map-).setView([32.7079, -96.9209], 10);
    L.tileLayer(-https url template-, \x7b attribution, subdomains, maxZoom \x7d).addTo(map);
  \x7d);

We shallowly embed the page state (`World`), the mapping-library primitives the
script calls, and the DOMContentLoaded callback itself, and prove the spec's
claims about them.
-/

/-- Geographic coordinate, as passed to `setView([lat, lng], zoom)`.
Rationals model the exact decimal literals of the script. -/
structure LatLng where
  lat : ℚ
  lng : ℚ
deriving DecidableEq, Repr

/-- Transient map-view object produced by the mapping library.
`center` and `zoom` are `none` until `setView` is called. -/
structure MapView where
  containerId : String
  center : Option LatLng
  zoom : Option ℤ
deriving DecidableEq, Repr

/-- Options object passed to `L.tileLayer` at lines 4-9 of the script. -/
structure TileLayerOptions where
  attribution : String
  subdomains : String
  maxZoom : ℤ
deriving DecidableEq, Repr

/-- Tile-layer object: the URL template and the options record. -/
structure TileLayer where
  urlTemplate : String
  options : TileLayerOptions
deriving DecidableEq, Repr

/-- Script-visible page and environment state.  `domIds` are the ids of the
elements present in the page; `domContent` the rendered content of each id;
`maps` and `layers` the map views constructed and the layers attached (keyed by
the id of the map container they were added to).  `files`, `storage` and
`envVars` model the parts of the environment the frame claims say the script
never touches. -/
structure World where
  domIds : List String
  domContent : String → String
  maps : List MapView
  layers : List (TileLayer × String)
  files : String → Option String
  storage : String → Option String
  envVars : String → Option String

namespace L

/-- Model of the mapping library factory `L.map(id)`: when the container
element exists it creates a fresh view (no center or zoom yet), renders the
map canvas into the container, and returns the view; when the container is
absent it throws "Map container not found" before performing any mutation
(the library's documented default behavior, which the script does not catch). -/
def map (id : String) (w : World) : World × Except String MapView :=
  if id ∈ w.domIds then
    let m : MapView := { containerId := id, center := none, zoom := none }
    ({ w with
        maps := w.maps ++ [m],
        domContent := fun i => if i = id then "leaflet-container" else w.domContent i },
     Except.ok m)
  else
    (w, Except.error "Map container not found")

/-- Model of `L.tileLayer(urlTemplate, options)`: a pure constructor. -/
def tileLayer (url : String) (opts : TileLayerOptions) : TileLayer :=
  { urlTemplate := url, options := opts }

end L

/-- Model of `map.setView([lat, lng], zoom)`: sets the view's center and zoom,
updating the stored view, and returns the updated view (the library returns
`this` for chaining). -/
def MapView.setView (m : MapView) (c : LatLng) (z : ℤ) (w : World) :
    World × MapView :=
  let mv : MapView := { m with center := some c, zoom := some z }
  ({ w with maps := w.maps.map fun v => if v = m then mv else v }, mv)

/-- Model of `layer.addTo(map)`: records the layer as attached to the map. -/
def TileLayer.addTo (t : TileLayer) (m : MapView) (w : World) : World :=
  { w with layers := w.layers ++ [(t, m.containerId)] }

/-- The anonymous function registered for DOMContentLoaded at lines 1-10 of the
script, translated statement by statement.  The returned `Except` records
whether an exception escaped the callback; the returned `World` is the page
state at normal return or at the (uncaught) throw. -/
def domContentLoadedCallback (w : World) : World × Except String Unit :=
  match L.map "map" w with
  | (w1, Except.error e) => (w1, Except.error e)
  | (w1, Except.ok m0) =>
    let (w2, map) := m0.setView { lat := 32.7079, lng := -96.9209 } 10 w1
    let layer := L.tileLayer "https://{s}.basemaps.cartocdn.com/dark_all/{z}/{x}/{y}{r}.png"
      { attribution :=
          "&copy; <a href=\"https://www.openstreetmap.org/\">OpenStreetMap</a> contributors &copy; <a href=\"https://carto.com/\">CARTO</a>",
        subdomains := "abcd",
        maxZoom := 19 }
    (layer.addTo map w2, Except.ok ())

/-- The map view the script builds when the mount element is present. -/
def builtView : MapView :=
  { containerId := "map"
    center := some { lat := 32.7079, lng := -96.9209 }
    zoom := some 10 }

/-- The tile layer the script builds. -/
def builtLayer : TileLayer :=
  { urlTemplate := "https://{s}.basemaps.cartocdn.com/dark_all/{z}/{x}/{y}{r}.png"
    options :=
      { attribution :=
          "&copy; <a href=\"https://www.openstreetmap.org/\">OpenStreetMap</a> contributors &copy; <a href=\"https://carto.com/\">CARTO</a>",
        subdomains := "abcd",
        maxZoom := 19 } }

/-- Helper: on a page with the mount element and no prior map view, the
callback's resulting map list is exactly the built view. -/
theorem callback_run_maps (w : World) (hdom : "map" ∈ w.domIds)
    (hmaps : w.maps = []) :
    (domContentLoadedCallback w).1.maps = [builtView] := by
  simp [domContentLoadedCallback, L.map, hdom, hmaps, MapView.setView,
    L.tileLayer, TileLayer.addTo, builtView]

/-- Helper: on a page with the mount element and no prior layer, the callback's
resulting layer list is exactly the built layer, attached to the "map" view. -/
theorem callback_run_layers (w : World) (hdom : "map" ∈ w.domIds)
    (hlayers : w.layers = []) :
    (domContentLoadedCallback w).1.layers = [(builtLayer, "map")] := by
  simp [domContentLoadedCallback, L.map, hdom, hlayers, MapView.setView,
    L.tileLayer, TileLayer.addTo, builtLayer]

/-- C1: on a page containing the mount element named "map" (and no map view
yet), the DOMContentLoaded callback returns normally and produces exactly one
map view, centered at (32.7079, -96.9209) with zoom level 10. -/
theorem callback_creates_single_centered_view (w : World)
    (hdom : "map" ∈ w.domIds) (hmaps : w.maps = []) :
    (domContentLoadedCallback w).2 = Except.ok () ∧
      (domContentLoadedCallback w).1.maps = [builtView] := by
  simp [domContentLoadedCallback, L.map, hdom, hmaps, MapView.setView,
    L.tileLayer, TileLayer.addTo, builtView]

/-- Witness for C1 at a concrete one-element page. -/
theorem callback_creates_single_centered_view_witness :
    (domContentLoadedCallback
        { domIds := ["map"], domContent := fun _ => "", maps := [],
          layers := [], files := fun _ => none, storage := fun _ => none,
          envVars := fun _ => none }).2 = Except.ok () ∧
      (domContentLoadedCallback
        { domIds := ["map"], domContent := fun _ => "", maps := [],
          layers := [], files := fun _ => none, storage := fun _ => none,
          envVars := fun _ => none }).1.maps = [builtView] :=
  callback_creates_single_centered_view _ (by simp) rfl

/-- C2: on a page containing the mount element (and fresh layer state), exactly
one tile layer ends up attached, to the created map view, and its URL template,
attribution, subdomains and maxZoom equal the constants of lines 4-9. -/
theorem callback_attaches_single_configured_layer (w : World)
    (hdom : "map" ∈ w.domIds) (hmaps : w.maps = []) (hlayers : w.layers = []) :
    (domContentLoadedCallback w).1.layers = [(builtLayer, "map")] ∧
      builtLayer.urlTemplate =
        "https://{s}.basemaps.cartocdn.com/dark_all/{z}/{x}/{y}{r}.png" ∧
      builtLayer.options.subdomains = "abcd" ∧
      builtLayer.options.attribution =
        "&copy; <a href=\"https://www.openstreetmap.org/\">OpenStreetMap</a> contributors &copy; <a href=\"https://carto.com/\">CARTO</a>" ∧
      builtLayer.options.maxZoom = 19 := by
  refine ⟨?_, rfl, rfl, rfl, rfl⟩
  simp [domContentLoadedCallback, L.map, hdom, hmaps, hlayers, MapView.setView,
    L.tileLayer, TileLayer.addTo, builtLayer]

/-- Witness for C2 at a concrete one-element page. -/
theorem callback_attaches_single_configured_layer_witness :
    (domContentLoadedCallback
        { domIds := ["map"], domContent := fun _ => "", maps := [],
          layers := [], files := fun _ => none, storage := fun _ => none,
          envVars := fun _ => none }).1.layers = [(builtLayer, "map")] ∧
      builtLayer.urlTemplate =
        "https://{s}.basemaps.cartocdn.com/dark_all/{z}/{x}/{y}{r}.png" ∧
      builtLayer.options.subdomains = "abcd" ∧
      builtLayer.options.attribution =
        "&copy; <a href=\"https://www.openstreetmap.org/\">OpenStreetMap</a> contributors &copy; <a href=\"https://carto.com/\">CARTO</a>" ∧
      builtLayer.options.maxZoom = 19 :=
  callback_attaches_single_configured_layer _ (by simp) rfl rfl

/-- C3: every map view and layer the callback produces satisfies the stated
invariants: the center is a valid geographic coordinate (latitude in [-90, 90],
longitude in [-180, 180]) and the initial zoom is non-negative and at most the
configured maxZoom of every attached layer (19). -/
theorem callback_config_invariants (w : World)
    (hdom : "map" ∈ w.domIds) (hmaps : w.maps = []) (hlayers : w.layers = []) :
    ∀ m ∈ (domContentLoadedCallback w).1.maps,
      ∃ c z, m.center = some c ∧ m.zoom = some z ∧
        -90 ≤ c.lat ∧ c.lat ≤ 90 ∧ -180 ≤ c.lng ∧ c.lng ≤ 180 ∧
        0 ≤ z ∧
        ∀ p ∈ (domContentLoadedCallback w).1.layers, z ≤ p.1.options.maxZoom := by
  have h1 := callback_run_maps w hdom hmaps
  have h2 := callback_run_layers w hdom hlayers
  intro m hm
  rw [h1] at hm
  simp only [List.mem_singleton] at hm
  subst hm
  refine ⟨{ lat := 32.7079, lng := -96.9209 }, 10, rfl, rfl, by norm_num, by norm_num,
    by norm_num, by norm_num, by norm_num, ?_⟩
  intro p hp
  rw [h2] at hp
  simp only [List.mem_singleton] at hp
  subst hp
  norm_num [builtLayer]

/-- Witness for C3: the view built on a concrete one-element page satisfies
the coordinate and zoom invariants. -/
theorem callback_config_invariants_witness :
    ∃ c z, builtView.center = some c ∧ builtView.zoom = some z ∧
      -90 ≤ c.lat ∧ c.lat ≤ 90 ∧ -180 ≤ c.lng ∧ c.lng ≤ 180 ∧
      0 ≤ z ∧
      ∀ p ∈ (domContentLoadedCallback
          { domIds := ["map"], domContent := fun _ => "", maps := [],
            layers := [], files := fun _ => none, storage := fun _ => none,
            envVars := fun _ => none }).1.layers, z ≤ p.1.options.maxZoom :=
  callback_config_invariants
    { domIds := ["map"], domContent := fun _ => "", maps := [],
      layers := [], files := fun _ => none, storage := fun _ => none,
      envVars := fun _ => none } (by simp) rfl rfl builtView
    (by rw [callback_run_maps _ (by simp) rfl]; simp)

/-- C6: when the mount element named "map" is absent from the page, the
callback does not produce a map view: no view is added, and the failure is
visible as the mapping library's uncaught "Map container not found" error. -/
theorem callback_missing_mount_fails_visibly (w : World)
    (hdom : "map" ∉ w.domIds) :
    (domContentLoadedCallback w).2 = Except.error "Map container not found" ∧
      (domContentLoadedCallback w).1.maps = w.maps := by
  simp [domContentLoadedCallback, L.map, hdom]

/-- Witness for C6 on the empty page. -/
theorem callback_missing_mount_fails_visibly_witness :
    (domContentLoadedCallback
        { domIds := [], domContent := fun _ => "", maps := [],
          layers := [], files := fun _ => none, storage := fun _ => none,
          envVars := fun _ => none }).2 = Except.error "Map container not found" ∧
      (domContentLoadedCallback
        { domIds := [], domContent := fun _ => "", maps := [],
          layers := [], files := fun _ => none, storage := fun _ => none,
          envVars := fun _ => none }).1.maps = [] :=
  callback_missing_mount_fails_visibly _ (by simp)

/-- C10: if `L.map` throws because the mount element is absent, the tile-layer
expression is never evaluated: no layer is constructed or attached, and no
script-visible state is modified at all — the world at the throw is exactly the
initial world. -/
theorem callback_atomic_on_map_failure (w : World)
    (hdom : "map" ∉ w.domIds) :
    domContentLoadedCallback w = (w, Except.error "Map container not found") := by
  simp [domContentLoadedCallback, L.map, hdom]

/-- Witness for C10 on a concrete page without the mount element. -/
theorem callback_atomic_on_map_failure_witness :
    domContentLoadedCallback
        { domIds := ["sidebar"], domContent := fun _ => "", maps := [],
          layers := [], files := fun _ => none, storage := fun _ => none,
          envVars := fun _ => none } =
      ({ domIds := ["sidebar"], domContent := fun _ => "", maps := [],
         layers := [], files := fun _ => none, storage := fun _ => none,
         envVars := fun _ => none }, Except.error "Map container not found") :=
  callback_atomic_on_map_failure _ (by simp)

/-- C5: the initializer reads nothing beyond whether the mount element exists
and the static literals of the script: two runs over equal initial DOM element
sets and equal initial map/layer state yield identical map configuration
(views and attached layers) and the same exception outcome, whatever the rest
of the environment (DOM contents, files, storage, environment variables)
holds. -/
theorem callback_deterministic_noninterference (w v : World)
    (hdom : w.domIds = v.domIds) (hmaps : w.maps = v.maps)
    (hlayers : w.layers = v.layers) :
    (domContentLoadedCallback w).1.maps = (domContentLoadedCallback v).1.maps ∧
      (domContentLoadedCallback w).1.layers = (domContentLoadedCallback v).1.layers ∧
      (domContentLoadedCallback w).2 = (domContentLoadedCallback v).2 := by
  by_cases h : "map" ∈ w.domIds
  · have hv : "map" ∈ v.domIds := hdom ▸ h
    simp [domContentLoadedCallback, L.map, h, hv, hmaps, hlayers,
      MapView.setView, L.tileLayer, TileLayer.addTo]
  · have hv : "map" ∉ v.domIds := hdom ▸ h
    simp [domContentLoadedCallback, L.map, h, hv, hmaps, hlayers]

/-- Witness for C5: two pages with the same elements but different content,
storage and environment data. -/
theorem callback_deterministic_noninterference_witness :
    (domContentLoadedCallback
        { domIds := ["map"], domContent := fun _ => "", maps := [],
          layers := [], files := fun _ => none, storage := fun _ => none,
          envVars := fun _ => none }).1.maps =
      (domContentLoadedCallback
        { domIds := ["map"], domContent := fun _ => "secret", maps := [],
          layers := [], files := fun _ => some "other", storage := fun k => some k,
          envVars := fun _ => some "secret" }).1.maps ∧
      (domContentLoadedCallback
        { domIds := ["map"], domContent := fun _ => "", maps := [],
          layers := [], files := fun _ => none, storage := fun _ => none,
          envVars := fun _ => none }).1.layers =
      (domContentLoadedCallback
        { domIds := ["map"], domContent := fun _ => "secret", maps := [],
          layers := [], files := fun _ => some "other", storage := fun k => some k,
          envVars := fun _ => some "secret" }).1.layers ∧
      (domContentLoadedCallback
        { domIds := ["map"], domContent := fun _ => "", maps := [],
          layers := [], files := fun _ => none, storage := fun _ => none,
          envVars := fun _ => none }).2 =
      (domContentLoadedCallback
        { domIds := ["map"], domContent := fun _ => "secret", maps := [],
          layers := [], files := fun _ => some "other", storage := fun k => some k,
          envVars := fun _ => some "secret" }).2 :=
  callback_deterministic_noninterference _ _ rfl rfl rfl

/-- C9: the callback's side effects are confined to the mount element and the
map/layer state: it writes no files, no persisted storage and no environment
variables, adds or removes no page elements, and leaves the content of every
element other than "map" unchanged (no hypotheses: this holds on every page,
with or without the mount element). -/
theorem callback_frame_conditions (w : World) :
    (domContentLoadedCallback w).1.files = w.files ∧
      (domContentLoadedCallback w).1.storage = w.storage ∧
      (domContentLoadedCallback w).1.envVars = w.envVars ∧
      (domContentLoadedCallback w).1.domIds = w.domIds ∧
      ∀ i, i ≠ "map" → (domContentLoadedCallback w).1.domContent i = w.domContent i := by
  by_cases h : "map" ∈ w.domIds
  · refine ⟨?_, ?_, ?_, ?_, ?_⟩ <;>
      simp [domContentLoadedCallback, L.map, h, MapView.setView,
        L.tileLayer, TileLayer.addTo]
    intro i hi
    simp [hi]
  · simp [domContentLoadedCallback, L.map, h]

/-- Browser events delivered to the page.  The script's top level registers a
listener only for DOMContentLoaded (line 1); every other event is untouched by
this script, so all others are collapsed into `other`. -/
inductive Event where
  | domContentLoaded
  | other
deriving DecidableEq, Repr

/-- Dispatch of one event against the listeners the script registered:
`document.addEventListener` at line 1 makes the callback run exactly on
DOMContentLoaded, synchronously; no other event has a handler in this script.
An exception escaping the callback is logged by the browser and leaves the
page state at the point of the throw. -/
def handleEvent (w : World) : Event → World
  | Event.domContentLoaded => (domContentLoadedCallback w).1
  | Event.other => w

/-- Sequential (single-threaded) processing of a trace of events. -/
def runEvents (w : World) : List Event → World
  | [] => w
  | e :: es => runEvents (handleEvent w e) es

/-- Processing a trace free of DOMContentLoaded leaves the page unchanged. -/
theorem runEvents_no_load (w : World) :
    ∀ es : List Event, Event.domContentLoaded ∉ es → runEvents w es = w := by
  intro es
  induction es generalizing w with
  | nil => intro _; rfl
  | cons e es ih =>
    intro h
    rw [List.mem_cons] at h
    push_neg at h
    cases e with
    | domContentLoaded => exact absurd rfl h.1
    | other => exact ih w h.2

/-- Running the callback at most doubles nothing: one invocation on a fresh
page leaves at most one map view. -/
theorem callback_maps_length_le (w : World) (hmaps : w.maps = []) :
    (domContentLoadedCallback w).1.maps.length ≤ 1 := by
  by_cases h : "map" ∈ w.domIds
  · simp [domContentLoadedCallback, L.map, h, hmaps, MapView.setView,
      L.tileLayer, TileLayer.addTo]
  · simp [domContentLoadedCallback, L.map, h, hmaps]

/-- C4: initialization is driven purely by the DOMContentLoaded event.  For
every trace of events on a fresh page in which the browser fires
DOMContentLoaded at most once (the browser guarantee): before the event fires
nothing has happened — any portion of the trace preceding the event leaves the
page exactly as it was, with no map view and no tile layer constructed — and
after the whole trace at most one map view has ever been constructed. -/
theorem init_runs_once_on_load (w : World) (es : List Event)
    (hmaps : w.maps = []) (hlayers : w.layers = [])
    (honce : es.count Event.domContentLoaded ≤ 1) :
    (∀ p q : List Event, es = p ++ q → Event.domContentLoaded ∉ p →
        runEvents w p = w ∧ (runEvents w p).maps = [] ∧ (runEvents w p).layers = []) ∧
      (runEvents w es).maps.length ≤ 1 := by
  constructor
  · intro p q _ hp
    rw [runEvents_no_load w p hp]
    exact ⟨rfl, hmaps, hlayers⟩
  · induction es generalizing w with
    | nil => simp [runEvents, hmaps]
    | cons e es ih =>
      cases e with
      | domContentLoaded =>
        rw [List.count_cons_self] at honce
        have hzero : es.count Event.domContentLoaded = 0 := by omega
        have hnone : Event.domContentLoaded ∉ es := by
          simpa [List.count_eq_zero] using hzero
        show (runEvents (handleEvent w Event.domContentLoaded) es).maps.length ≤ 1
        rw [runEvents_no_load _ es hnone]
        exact callback_maps_length_le w hmaps
      | other =>
        rw [List.count_cons_of_ne (by simp)] at honce
        exact ih w hmaps hlayers honce

/-- Witness for C4 on a concrete trace: two unrelated events around one
DOMContentLoaded. -/
theorem init_runs_once_on_load_witness :
    (∀ p q : List Event,
        [Event.other, Event.domContentLoaded, Event.other] = p ++ q →
        Event.domContentLoaded ∉ p →
        runEvents
            { domIds := ["map"], domContent := fun _ => "", maps := [],
              layers := [], files := fun _ => none, storage := fun _ => none,
              envVars := fun _ => none } p =
          { domIds := ["map"], domContent := fun _ => "", maps := [],
            layers := [], files := fun _ => none, storage := fun _ => none,
            envVars := fun _ => none } ∧
          (runEvents
            { domIds := ["map"], domContent := fun _ => "", maps := [],
              layers := [], files := fun _ => none, storage := fun _ => none,
              envVars := fun _ => none } p).maps = [] ∧
          (runEvents
            { domIds := ["map"], domContent := fun _ => "", maps := [],
              layers := [], files := fun _ => none, storage := fun _ => none,
              envVars := fun _ => none } p).layers = []) ∧
      (runEvents
        { domIds := ["map"], domContent := fun _ => "", maps := [],
          layers := [], files := fun _ => none, storage := fun _ => none,
          envVars := fun _ => none }
        [Event.other, Event.domContentLoaded, Event.other]).maps.length ≤ 1 :=
  init_runs_once_on_load _ _ rfl rfl (by decide)

/-- Code point of the opening template delimiter. -/
def openBrace : Char := Char.ofNat 123

/-- Code point of the closing template delimiter. -/
def closeBrace : Char := Char.ofNat 125

/-- Tokens of a tile URL template: literal runs and delimiter-enclosed
variable names. -/
inductive TmplTok where
  | lit (s : List Char)
  | var (name : List Char)
deriving DecidableEq, Repr

/-- Single-pass scan of a URL template into tokens.  This models the mapping
library's one-pass regex substitution over the template: substituted values
are never re-scanned.  The Boolean records whether the scan is inside a
variable; the accumulator holds the current chunk, reversed. -/
def scanTmpl : List Char → Bool → List Char → List TmplTok
  | [], false, acc => [TmplTok.lit acc.reverse]
  | [], true, acc => [TmplTok.lit (openBrace :: acc.reverse)]
  | c :: cs, false, acc =>
    if c = openBrace then TmplTok.lit acc.reverse :: scanTmpl cs true []
    else scanTmpl cs false (c :: acc)
  | c :: cs, true, acc =>
    if c = closeBrace then TmplTok.var acc.reverse :: scanTmpl cs false []
    else scanTmpl cs true (c :: acc)

/-- Rendering of a token list against variable data: literals pass through,
variables are replaced by their value; a variable with no value makes the
library throw ("No value provided for variable"), modeled as `none`. -/
def renderToks (data : List Char → Option (List Char)) :
    List TmplTok → Option (List Char)
  | [] => some []
  | TmplTok.lit s :: ts => (renderToks data ts).map fun rest => s ++ rest
  | TmplTok.var n :: ts =>
    match data n with
    | none => none
    | some v => (renderToks data ts).map fun rest => v ++ rest

/-- Model of the mapping library's template expansion (`L.Util.template`). -/
def tmplExpand (tmpl : String) (data : List Char → Option (List Char)) :
    Option (List Char) :=
  renderToks data (scanTmpl tmpl.toList false [])

/-- Variable data supplied by the mapping library for one tile request:
subdomain, tile coordinates, and the resolution suffix (empty or "@2x"). -/
def tileData (sd : Char) (z x y : ℕ) (r : List Char) :
    List Char → Option (List Char)
  | ['s'] => some [sd]
  | ['z'] => some (toString z).toList
  | ['x'] => some (toString x).toList
  | ['y'] => some (toString y).toList
  | ['r'] => some r
  | _ => none

/-- Model of the mapping library's subdomain choice for a tile: the configured
subdomain string indexed by (x + y) modulo its length. -/
def getSubdomain (t : TileLayer) (x y : ℕ) : Char :=
  t.options.subdomains.toList.getD
    ((x + y) % t.options.subdomains.length) 'a'

/-- Model of the mapping library's per-tile URL generation for a layer:
instantiation of the layer's configured template at the tile's data. -/
def getTileUrl (t : TileLayer) (z x y : ℕ) (r : List Char) :
    Option (List Char) :=
  tmplExpand t.urlTemplate (tileData (getSubdomain t x y) z x y r)

/-- Scan of the configured template of the script's tile layer. -/
theorem scanTmpl_builtLayer :
    scanTmpl builtLayer.urlTemplate.toList false [] =
      [TmplTok.lit "https://".toList, TmplTok.var ['s'],
       TmplTok.lit ".basemaps.cartocdn.com/dark_all/".toList,
       TmplTok.var ['z'],
       TmplTok.lit "/".toList, TmplTok.var ['x'],
       TmplTok.lit "/".toList, TmplTok.var ['y'],
       TmplTok.lit [], TmplTok.var ['r'],
       TmplTok.lit ".png".toList] := by decide

/-- C7: every tile-request URL generated for the layer the script attaches is
exactly the instantiation of the configured template: for every tile
coordinate (z, x, y) and resolution suffix, the URL is the documented pattern
with the subdomain drawn from the configured set "abcd". -/
theorem tile_urls_follow_template (w : World)
    (hdom : "map" ∈ w.domIds) (hlayers : w.layers = []) :
    ∀ p ∈ (domContentLoadedCallback w).1.layers, ∀ z x y : ℕ, ∀ r : List Char,
      getSubdomain p.1 x y ∈ "abcd".toList ∧
      getTileUrl p.1 z x y r =
        some ("https://".toList ++ [getSubdomain p.1 x y] ++
          ".basemaps.cartocdn.com/dark_all/".toList ++ (toString z).toList ++
          "/".toList ++ (toString x).toList ++ "/".toList ++
          (toString y).toList ++ r ++ ".png".toList) := by
  intro p hp z x y r
  rw [callback_run_layers w hdom hlayers] at hp
  simp only [List.mem_singleton] at hp
  subst hp
  constructor
  · have h4 : (x + y) % 4 = 0 ∨ (x + y) % 4 = 1 ∨ (x + y) % 4 = 2 ∨
        (x + y) % 4 = 3 := by omega
    have hlen : ("abcd" : String).length = 4 := by decide
    rcases h4 with h | h | h | h <;>
      simp [getSubdomain, builtLayer, hlen, h]
  · simp [getTileUrl, tmplExpand, scanTmpl_builtLayer, renderToks, tileData]

/-- Witness for C7: the URL of tile (z, x, y) = (5, 3, 7) at retina resolution
for the layer attached on a concrete one-element page. -/
theorem tile_urls_follow_template_witness :
    getSubdomain builtLayer 3 7 ∈ "abcd".toList ∧
      getTileUrl builtLayer 5 3 7 "@2x".toList =
        some ("https://".toList ++ [getSubdomain builtLayer 3 7] ++
          ".basemaps.cartocdn.com/dark_all/".toList ++ (toString (5 : ℕ)).toList ++
          "/".toList ++ (toString (3 : ℕ)).toList ++ "/".toList ++
          (toString (7 : ℕ)).toList ++ "@2x".toList ++ ".png".toList) :=
  tile_urls_follow_template
    { domIds := ["map"], domContent := fun _ => "", maps := [],
      layers := [], files := fun _ => none, storage := fun _ => none,
      envVars := fun _ => none } (by simp) rfl (builtLayer, "map")
    (by rw [callback_run_layers _ (by simp) rfl]; simp) 5 3 7 "@2x".toList

/-- URLs of the tile requests a layer issues for a list of tile coordinates
(z, x, y) at a fixed resolution suffix. -/
def tileRequestUrls (t : TileLayer) (coords : List (ℕ × ℕ × ℕ))
    (r : List Char) : List (List Char) :=
  coords.filterMap fun c => getTileUrl t c.1 c.2.1 c.2.2 r

/-- Model of issuing a batch of tile requests against a tile provider
(a fixed assignment of an image to every URL, the image type abstract):
each request is answered from the URL alone. -/
def fetchAll {Img : Type} (provider : List Char → Img)
    (urls : List (List Char)) : List (List Char × Img) :=
  urls.map fun u => (u, provider u)

/-- C8: tile requests are independent and idempotent: in any batch of requests
issued for the script's tile layer, any two requests for the same tile URL
receive the same image — whenever and however often the tile is re-requested —
and reordering the requested coordinates merely reorders the responses (no
ordering, cancellation, retry or backpressure relationship between
requests). -/
theorem tile_requests_independent_idempotent {Img : Type}
    (provider : List Char → Img) (t : TileLayer)
    (coords coords2 : List (ℕ × ℕ × ℕ)) (r : List Char)
    (hperm : coords.Perm coords2) :
    (∀ a ∈ fetchAll provider (tileRequestUrls t coords r),
      ∀ b ∈ fetchAll provider (tileRequestUrls t coords r),
        a.1 = b.1 → a.2 = b.2) ∧
      (fetchAll provider (tileRequestUrls t coords r)).Perm
        (fetchAll provider (tileRequestUrls t coords2 r)) := by
  constructor
  · intro a ha b hb hab
    simp only [fetchAll, List.mem_map] at ha hb
    obtain ⟨u, _, rfl⟩ := ha
    obtain ⟨v, _, rfl⟩ := hb
    simp only at hab
    rw [hab]
  · exact (hperm.filterMap _).map _

/-- Witness for C8: two request batches over permuted coordinate lists. -/
theorem tile_requests_independent_idempotent_witness :
    (∀ a ∈ fetchAll List.length
        (tileRequestUrls builtLayer [(1, 2, 3), (4, 5, 6), (1, 2, 3)] []),
      ∀ b ∈ fetchAll List.length
        (tileRequestUrls builtLayer [(1, 2, 3), (4, 5, 6), (1, 2, 3)] []),
        a.1 = b.1 → a.2 = b.2) ∧
      (fetchAll List.length
        (tileRequestUrls builtLayer [(1, 2, 3), (4, 5, 6), (1, 2, 3)] [])).Perm
        (fetchAll List.length
          (tileRequestUrls builtLayer [(4, 5, 6), (1, 2, 3), (1, 2, 3)] [])) :=
  tile_requests_independent_idempotent List.length builtLayer _ _ []
    (by decide)

/-- Witness for C9 at a concrete one-element page. -/
theorem callback_frame_conditions_witness :
    (domContentLoadedCallback
        { domIds := ["map"], domContent := fun _ => "", maps := [],
          layers := [], files := fun _ => none, storage := fun _ => none,
          envVars := fun _ => none }).1.files =
      (fun _ => none : String → Option String) ∧
      (domContentLoadedCallback
        { domIds := ["map"], domContent := fun _ => "", maps := [],
          layers := [], files := fun _ => none, storage := fun _ => none,
          envVars := fun _ => none }).1.storage =
        (fun _ => none : String → Option String) ∧
      (domContentLoadedCallback
        { domIds := ["map"], domContent := fun _ => "", maps := [],
          layers := [], files := fun _ => none, storage := fun _ => none,
          envVars := fun _ => none }).1.envVars =
        (fun _ => none : String → Option String) ∧
      (domContentLoadedCallback
        { domIds := ["map"], domContent := fun _ => "", maps := [],
          layers := [], files := fun _ => none, storage := fun _ => none,
          envVars := fun _ => none }).1.domIds = ["map"] ∧
      ∀ i, i ≠ "map" →
        (domContentLoadedCallback
          { domIds := ["map"], domContent := fun _ => "", maps := [],
            layers := [], files := fun _ => none, storage := fun _ => none,
            envVars := fun _ => none }).1.domContent i = "" :=
  callback_frame_conditions
    { domIds := ["map"], domContent := fun _ => "", maps := [],
      layers := [], files := fun _ => none, storage := fun _ => none,
      envVars := fun _ => none }
